import Mathlib

/-!
Verification of the timeline assembly and denoise pipeline of the
auto-translate repository.  All definitions are shallow embeddings of
the Python sources `src/translation/audio_builder.py` and
`src/translation/utils/denoise.py`; external effects (pydub decoding,
the filesystem, subprocess invocations of ffmpeg/ffprobe) are passed in
as explicit environment values describing their outcomes.
-/

namespace AutoTranslate

/-! ### Data model: timed voice-over segments (`audio_builder.py`)

pydub `AudioSegment` values are modelled by their provenance: which file
they were decoded from, and which slice / fade-out operations were applied.
`len(audio)` is supplied by an abstract `audioLen` oracle on file paths;
slicing `audio[:ms]` yields length `ms` (the code only slices to lengths
below the clip length). -/

/-- Abstract pydub audio value (provenance of the samples). -/
inductive Audio where
  /-- `AudioSegment.from_mp3(path)` -/
  | clipOf (path : String)
  /-- `audio_file[:ms]` -/
  | slice (a : Audio) (ms : Int)
  /-- `audio.fade_out(ms)` -/
  | fadeOut (a : Audio) (ms : Int)
  /-- `AudioSegment.empty()` -/
  | empty
  deriving DecidableEq

/-- `utils/tts.py`: the fields of `VoiceOverResult` used by the assembler. -/
structure VoiceOverResult where
  minutes : Int
  seconds : Int
  files_path : String
  deriving DecidableEq

/-- One entry of the `audio_segments` working list of `_build_synced`:
the tuple `(audio_file, start_time, duration)`. -/
structure SyncSeg where
  audio : Audio
  start_time : Int
  duration : Int
  deriving DecidableEq

/-- `_build_synced` lines 84–97: decode a clip, compute its start offset
`minutes * 60 * 1000 + seconds * 1000` and its duration `len(audio_file)`. -/
def prepareSegment (audioLen : String → Int) (r : VoiceOverResult) : SyncSeg :=
  { audio := .clipOf r.files_path
    start_time := r.minutes * 60 * 1000 + r.seconds * 1000
    duration := audioLen r.files_path }

/-- `audio_segments.sort(key=lambda x: x[1])`: stable sort by start time
(CPython's sort is stable; insertion sort with `≤` on the key is the same
stable order). -/
def sortByStart (l : List SyncSeg) : List SyncSeg :=
  List.insertionSort (fun a b => a.start_time ≤ b.start_time) l

/-- `_build_synced` lines 102–118, the single left-to-right overlap pass.
The Python loop mutates only index `i` while reading index `i+1`'s start
time (never modified by any iteration), so it is the following structural
recursion on the list.  The Python locals `end_time = start_time + duration`
and `max_duration = next_start - start_time - 50` are inlined. -/
def truncateOverlaps : List SyncSeg → List SyncSeg
  | [] => []
  | [s] => [s]
  | s :: next :: rest =>
    if s.start_time + s.duration > next.start_time then
      if next.start_time - s.start_time - 50 > 0 then
        { audio := .fadeOut (.slice s.audio (next.start_time - s.start_time - 50)) 30
          start_time := s.start_time
          duration := next.start_time - s.start_time - 50 } :: truncateOverlaps (next :: rest)
      else
        { audio := .empty, start_time := s.start_time, duration := 0 }
          :: truncateOverlaps (next :: rest)
    else
      s :: truncateOverlaps (next :: rest)

/-- `_build_synced` lines 121–123: recompute the track length as the
maximum of `start_time + duration` over the post-truncation segments. -/
def maxEndTime (l : List SyncSeg) : Int :=
  l.foldl (fun acc s => max acc (s.start_time + s.duration)) 0

/-- The post-truncation segment list produced by `_build_synced` before
the overlay/export steps. -/
def buildSyncedSegments (audioLen : String → Int)
    (results : List VoiceOverResult) : List SyncSeg :=
  truncateOverlaps (sortByStart (results.map (prepareSegment audioLen)))

/-! ### Lemmas for the overlap-pass invariant -/

instance : IsTotal SyncSeg (fun a b => a.start_time ≤ b.start_time) :=
  ⟨fun a b => le_total a.start_time b.start_time⟩

instance : IsTrans SyncSeg (fun a b => a.start_time ≤ b.start_time) :=
  ⟨fun _ _ _ hab hbc => le_trans hab hbc⟩

lemma sortByStart_chain (l : List SyncSeg) :
    List.Chain' (fun a b => a.start_time ≤ b.start_time) (sortByStart l) :=
  (List.sorted_insertionSort (fun a b => a.start_time ≤ b.start_time) l).chain'

lemma truncateOverlaps_head_start (s : SyncSeg) (l : List SyncSeg) :
    ∃ s2 t, truncateOverlaps (s :: l) = s2 :: t ∧ s2.start_time = s.start_time := by
  cases l with
  | nil => exact ⟨s, [], rfl, rfl⟩
  | cons next rest =>
    show ∃ s2 t,
      (if s.start_time + s.duration > next.start_time then
        if next.start_time - s.start_time - 50 > 0 then
          ({ audio := .fadeOut (.slice s.audio (next.start_time - s.start_time - 50)) 30
             start_time := s.start_time
             duration := next.start_time - s.start_time - 50 } : SyncSeg)
            :: truncateOverlaps (next :: rest)
        else
          ({ audio := .empty, start_time := s.start_time, duration := 0 } : SyncSeg)
            :: truncateOverlaps (next :: rest)
      else s :: truncateOverlaps (next :: rest)) = s2 :: t ∧ s2.start_time = s.start_time
    by_cases h1 : s.start_time + s.duration > next.start_time
    · by_cases h2 : next.start_time - s.start_time - 50 > 0
      · rw [if_pos h1, if_pos h2]; exact ⟨_, _, rfl, rfl⟩
      · rw [if_pos h1, if_neg h2]; exact ⟨_, _, rfl, rfl⟩
    · rw [if_neg h1]; exact ⟨_, _, rfl, rfl⟩

lemma truncateOverlaps_chain : ∀ l : List SyncSeg,
    List.Chain' (fun a b => a.start_time ≤ b.start_time) l →
    List.Chain' (fun a b => a.start_time + a.duration ≤ b.start_time)
      (truncateOverlaps l)
  | [] , _ => by simp [truncateOverlaps]
  | [s], _ => by simp [truncateOverlaps]
  | s :: next :: rest, h => by
    have hs : s.start_time ≤ next.start_time := (List.chain'_cons.mp h).1
    have htail := truncateOverlaps_chain (next :: rest) (List.chain'_cons.mp h).2
    obtain ⟨s2, t, heq, hstart⟩ := truncateOverlaps_head_start next rest
    show List.Chain' (fun a b => a.start_time + a.duration ≤ b.start_time)
      (if s.start_time + s.duration > next.start_time then
        if next.start_time - s.start_time - 50 > 0 then
          ({ audio := .fadeOut (.slice s.audio (next.start_time - s.start_time - 50)) 30
             start_time := s.start_time
             duration := next.start_time - s.start_time - 50 } : SyncSeg)
            :: truncateOverlaps (next :: rest)
        else
          ({ audio := .empty, start_time := s.start_time, duration := 0 } : SyncSeg)
            :: truncateOverlaps (next :: rest)
      else s :: truncateOverlaps (next :: rest))
    rw [heq] at htail ⊢
    by_cases h1 : s.start_time + s.duration > next.start_time
    · by_cases h2 : next.start_time - s.start_time - 50 > 0
      · rw [if_pos h1, if_pos h2, List.chain'_cons]
        exact ⟨by simp only [hstart]; omega, htail⟩
      · rw [if_pos h1, if_neg h2, List.chain'_cons]
        exact ⟨by simp only [hstart]; omega, htail⟩
    · rw [if_neg h1, List.chain'_cons]
      exact ⟨by simp only [hstart]; omega, htail⟩

/-- C1: In synced mode, after the single left-to-right overlap pass over
the start-time-sorted segment list, every adjacent pair `(i, i+1)`
satisfies `start[i] + duration[i] <= start[i+1]`: each overlapping segment
is replaced by a truncated copy of duration `start[i+1] - start[i] - 50`
or reduced to zero duration, and one pass (no iteration to convergence)
establishes the invariant. -/
theorem synced_single_pass_no_residual_overlap
    (audioLen : String → Int) (results : List VoiceOverResult) :
    List.Chain' (fun a b => a.start_time + a.duration ≤ b.start_time)
      (buildSyncedSegments audioLen results) :=
  truncateOverlaps_chain _ (sortByStart_chain _)

/-- Duration oracle for the concrete two-segment overlap example. -/
def exampleAudioLen : String → Int :=
  fun p => if p = "a.mp3" then 5000 else if p = "b.mp3" then 2000 else 0

/-- C3: segments A `(start 1000 ms, duration 5000 ms)` and B
`(start 3000 ms, duration 2000 ms)`: the overlap pass replaces A by a
truncated copy of duration `1950 = 3000 - 1000 - 50` carrying a 30 ms tail
fade, and the recomputed track length is `5000`. -/
theorem synced_overlap_example :
    buildSyncedSegments exampleAudioLen
        [⟨0, 1, "a.mp3"⟩, ⟨0, 3, "b.mp3"⟩] =
      [⟨.fadeOut (.slice (.clipOf "a.mp3") 1950) 30, 1000, 1950⟩,
       ⟨.clipOf "b.mp3", 3000, 2000⟩] ∧
    maxEndTime (buildSyncedSegments exampleAudioLen
        [⟨0, 1, "a.mp3"⟩, ⟨0, 3, "b.mp3"⟩]) = 5000 := by
  constructor <;> rfl

/-! ### Sequential mode (`_build_sequential`) -/

/-- One constituent of the concatenated pydub track: a decoded clip or an
inserted silence (`AudioSegment.silent(duration=gap_ms)`). -/
inductive Atom where
  | clip (path : String)
  | silence (ms : Int)
  deriving DecidableEq

/-- `len` of one track constituent. -/
def atomLen (audioLen : String → Int) : Atom → Int
  | .clip p => audioLen p
  | .silence n => n

/-- `sorted(voice_over_results, key=lambda x: x.minutes * 60 + x.seconds)`
(stable sort). -/
def sortByTime (l : List VoiceOverResult) : List VoiceOverResult :=
  List.insertionSort
    (fun a b => a.minutes * 60 + a.seconds ≤ b.minutes * 60 + b.seconds) l

/-- `_build_sequential` lines 56–69: append each sorted clip to the result,
adding the gap after every chunk except the last (`if i < len - 1`). -/
def concatWithGaps (gap_ms : Int) : List VoiceOverResult → List Atom
  | [] => []
  | [r] => [.clip r.files_path]
  | r :: next :: rest =>
      .clip r.files_path :: .silence gap_ms :: concatWithGaps gap_ms (next :: rest)

/-- The concatenated track built by `_build_sequential`. -/
def buildSequentialTrack (gap_ms : Int) (results : List VoiceOverResult) : List Atom :=
  concatWithGaps gap_ms (sortByTime results)

/-- `len(audio_result)`: pydub concatenation length is the sum of the
constituent lengths. -/
def trackLen (audioLen : String → Int) (t : List Atom) : Int :=
  (t.map (atomLen audioLen)).sum

lemma concatWithGaps_eq_intersperse (gap_ms : Int) :
    ∀ l : List VoiceOverResult,
      concatWithGaps gap_ms l =
        List.intersperse (.silence gap_ms) (l.map (fun r => Atom.clip r.files_path))
  | [] => rfl
  | [_] => rfl
  | r :: next :: rest => by
      simp only [concatWithGaps, List.map_cons, List.intersperse,
        concatWithGaps_eq_intersperse gap_ms (next :: rest)]

lemma concatWithGaps_trackLen (audioLen : String → Int) (gap_ms : Int) :
    ∀ l : List VoiceOverResult, l ≠ [] →
      trackLen audioLen (concatWithGaps gap_ms l) =
        (l.map (fun r => audioLen r.files_path)).sum + ((l.length : Int) - 1) * gap_ms
  | [], h => absurd rfl h
  | [r], _ => by simp [concatWithGaps, trackLen, atomLen]
  | r :: next :: rest, _ => by
      have ih := concatWithGaps_trackLen audioLen gap_ms (next :: rest)
        (List.cons_ne_nil _ _)
      simp only [concatWithGaps, trackLen, List.map_cons, List.sum_cons, atomLen] at ih ⊢
      rw [ih]
      simp only [List.length_cons]
      push_cast
      ring

lemma sortByTime_map_sum (f : VoiceOverResult → Int) (l : List VoiceOverResult) :
    ((sortByTime l).map f).sum = (l.map f).sum :=
  ((List.perm_insertionSort _ l).map f).sum_eq

lemma sortByTime_length (l : List VoiceOverResult) :
    (sortByTime l).length = l.length :=
  (List.perm_insertionSort _ l).length_eq

lemma sortByTime_ne_nil {l : List VoiceOverResult} (h : l ≠ []) :
    sortByTime l ≠ [] := by
  intro hnil
  apply h
  have := sortByTime_length l
  rw [hnil] at this
  exact List.length_eq_zero.mp this.symm

/-- C7: in sequential mode the output is the decoded clips in ascending
timestamp order with one silent gap between every consecutive pair and
none after the last, so for a non-empty list the final track length is
`Σ duration[i] + (n-1) * gapMs`. -/
theorem sequential_gaps_and_length (audioLen : String → Int) (gap_ms : Int)
    (results : List VoiceOverResult) (h : results ≠ []) :
    buildSequentialTrack gap_ms results =
      List.intersperse (.silence gap_ms)
        ((sortByTime results).map (fun r => Atom.clip r.files_path)) ∧
    trackLen audioLen (buildSequentialTrack gap_ms results) =
      (results.map (fun r => audioLen r.files_path)).sum +
        ((results.length : Int) - 1) * gap_ms := by
  constructor
  · exact concatWithGaps_eq_intersperse gap_ms (sortByTime results)
  · rw [buildSequentialTrack,
      concatWithGaps_trackLen audioLen gap_ms _ (sortByTime_ne_nil h),
      sortByTime_map_sum, sortByTime_length]

/-- Duration oracle for the concrete three-segment sequential example. -/
def seqAudioLen : String → Int := fun p =>
  if p = "x1.mp3" then 1000 else if p = "x2.mp3" then 2000 else
  if p = "x3.mp3" then 1500 else 0

/-- Witness for C7: durations `1000, 2000, 1500` with `gapMs = 1000` give a
track of length `6500`. -/
theorem sequential_gaps_and_length_witness :
    trackLen seqAudioLen (buildSequentialTrack 1000
      [⟨0, 0, "x1.mp3"⟩, ⟨0, 10, "x2.mp3"⟩, ⟨0, 20, "x3.mp3"⟩]) = 6500 :=
  ((sequential_gaps_and_length seqAudioLen 1000
      [⟨0, 0, "x1.mp3"⟩, ⟨0, 10, "x2.mp3"⟩, ⟨0, 20, "x3.mp3"⟩]
      (List.cons_ne_nil _ _)).2).trans (by decide)

/-! ### Manifest rewrite (`merge_files_respecting_time` and `build`) -/

/-- The Python exceptions that the modelled code can raise or catch. -/
inductive PyExc where
  /-- `FileNotFoundError`: `open()` on a missing file, or a missing
  external binary in `subprocess.run`. -/
  | fileNotFoundError
  /-- `IndexError`: list index out of range. -/
  | indexError
  /-- `subprocess.CalledProcessError`: external command exited non-zero. -/
  | calledProcessError
  /-- `KeyError` / `json.JSONDecodeError` while parsing ffprobe output. -/
  | probeParseError
  deriving DecidableEq

/-- Does the character list start with the given pattern? -/
def startsWithChars : List Char → List Char → Bool
  | [], _ => true
  | _ :: _, [] => false
  | p :: ps, c :: cs => p == c && startsWithChars ps cs

/-- First occurrence of a non-empty separator in a character list:
`some (before, after)` where `after` is the text following the separator,
`none` when the separator does not occur. -/
def findSplit (sep : List Char) : List Char → Option (List Char × List Char)
  | [] => none
  | c :: cs =>
    if startsWithChars sep (c :: cs) then some ([], (c :: cs).drop sep.length)
    else
      match findSplit sep cs with
      | some (before, after) => some (c :: before, after)
      | none => none

/-- Python `s.split(sep)[0]` for a non-empty `sep`: the text before the
first occurrence, or all of `s` when `sep` does not occur. -/
def pySplitHead (sep s : List Char) : List Char :=
  match findSplit sep s with
  | some (before, _) => before
  | none => s

/-- Lexicographic (code-point) comparison of character lists — how Python
orders the string keys when sorting. -/
def charListLt : List Char → List Char → Bool
  | _, [] => false
  | [], _ :: _ => true
  | a :: as, b :: bs => a < b || (a == b && charListLt as bs)

/-- Total `≤` used by the stable insertion sort modelling Python sort. -/
def charListLe (a b : List Char) : Bool := !(charListLt b a)

/-- Sort key of one manifest line, `x.split("file ")[1].split(".mp3")[0]`:
the text between the first `"file "` occurrence and the following
separator occurrence, cut at the first `".mp3"`.  `none` models the
`IndexError` raised when the line contains no occurrence of `"file "`
(Python `split` then returns a one-element list and `[1]` is out of
range). -/
def lineKey (x : String) : Option (List Char) :=
  match findSplit "file ".data x.data with
  | none => none
  | some (_, after) =>
      some (pySplitHead ".mp3".data (pySplitHead "file ".data after))

/-- `merge_files_respecting_time` lines 19–29 acting on the contents of
`outputs/<language>/files.txt` (`none` = the file does not exist, so
`open` raises `FileNotFoundError`).  CPython `list.sort(key=...)` computes
every key first — raising `IndexError` on a line without a `"file "`
separator, with the manifest left unwritten — then sorts stably by the
lexicographic order of the keys; on success the reordered lines are
written back. -/
def merge_files_respecting_time (manifest : Option (List String)) :
    Except PyExc (List String) :=
  match manifest with
  | none => .error .fileNotFoundError
  | some lines =>
      if lines.all (fun x => (lineKey x).isSome) then
        .ok (List.insertionSort
          (fun a b => charListLe ((lineKey a).getD []) ((lineKey b).getD []) = true) lines)
      else
        .error .indexError

/-- The exported track of one `build` call. -/
inductive Track where
  | synced (segments : List SyncSeg) (length : Int)
  | sequential (atoms : List Atom)
  deriving DecidableEq

/-- `AudioBuilder.build` lines 34–40: rewrite the manifest first; a
`FileNotFoundError` / `IndexError` from the merge propagates and no track
is built.  On success the result carries the rewritten manifest contents
and the mode-selected track built from `voice_over_results`. -/
def build (manifest : Option (List String)) (audioLen : String → Int)
    (sequential : Bool) (gap_ms : Int)
    (voice_over_results : List VoiceOverResult) :
    Except PyExc (List String × Track) :=
  match merge_files_respecting_time manifest with
  | .error e => .error e
  | .ok written =>
      if sequential then
        .ok (written, .sequential (buildSequentialTrack gap_ms voice_over_results))
      else
        .ok (written, .synced (buildSyncedSegments audioLen voice_over_results)
          (maxEndTime (buildSyncedSegments audioLen voice_over_results)))

/-- C10 counterexample: the line `"x file 01.mp3"` does not have the
`"file "` prefix, yet `build` does not fail on it — the code splits on the
first occurrence of `"file "` anywhere in the line. -/
theorem build_missing_file_prefix_counterexample :
    (startsWithChars "file ".data "x file 01.mp3".data = false) ∧
    build (some ["x file 01.mp3"]) exampleAudioLen false 1000 [] =
      .ok (["x file 01.mp3"], .synced [] 0) :=
  ⟨by decide, by rfl⟩

/-- C10 (amended): every `build` call, in both modes, first rewrites the
manifest with its lines stably reordered lexicographically by the
substring between the first `"file "` occurrence and the following
`".mp3"`, before any track is produced; if the manifest file does not
exist, or some line contains no `"file "` occurrence at all, `build`
fails with the corresponding exception and produces no track. -/
theorem build_rewrites_manifest_first (manifest : Option (List String))
    (audioLen : String → Int) (sequential : Bool) (gap_ms : Int)
    (results : List VoiceOverResult) :
    (manifest = none →
      build manifest audioLen sequential gap_ms results = .error .fileNotFoundError) ∧
    (∀ lines, manifest = some lines → (∃ x ∈ lines, lineKey x = none) →
      build manifest audioLen sequential gap_ms results = .error .indexError) ∧
    (∀ lines, manifest = some lines → (∀ x ∈ lines, (lineKey x).isSome) →
      ∃ tr, build manifest audioLen sequential gap_ms results =
        .ok (List.insertionSort
          (fun a b => charListLe ((lineKey a).getD []) ((lineKey b).getD []) = true)
          lines, tr)) := by
  refine ⟨fun hm => ?_, fun lines hm hbad => ?_, fun lines hm hok => ?_⟩
  · rw [hm]; rfl
  · rw [hm]
    have : lines.all (fun x => (lineKey x).isSome) = false := by
      obtain ⟨x, hx, hk⟩ := hbad
      rw [List.all_eq_false]
      exact ⟨x, hx, by simp [hk]⟩
    simp [build, merge_files_respecting_time, this]
  · rw [hm]
    have : lines.all (fun x => (lineKey x).isSome) = true := by
      rw [List.all_eq_true]
      intro x hx
      exact hok x hx
    by_cases hs : sequential = true
    · refine ⟨.sequential (buildSequentialTrack gap_ms results), ?_⟩
      simp [build, merge_files_respecting_time, this, hs]
    · rw [Bool.not_eq_true] at hs
      refine ⟨.synced (buildSyncedSegments audioLen results)
        (maxEndTime (buildSyncedSegments audioLen results)), ?_⟩
      simp [build, merge_files_respecting_time, this, hs]

/-- Witness for C10 (amended): a two-line manifest is reordered by the
substring key (`"0003" < "0010"`) before the (empty) sequential track is
built. -/
theorem build_rewrites_manifest_first_witness :
    ∃ tr, build (some ["file 0010.mp3", "file 0003.mp3"]) exampleAudioLen
        true 1000 [] = .ok (["file 0003.mp3", "file 0010.mp3"], tr) := by
  obtain ⟨tr, htr⟩ :=
    (build_rewrites_manifest_first (some ["file 0010.mp3", "file 0003.mp3"])
      exampleAudioLen true 1000 []).2.2 ["file 0010.mp3", "file 0003.mp3"]
      rfl (by decide)
  refine ⟨tr, ?_⟩
  rw [htr]
  congr 1

/-! ### DenoiseEngine: filter-chain construction (`utils/denoise.py`)

Float seconds values are modelled as exact rationals; at the values the
claims exercise, the float arithmetic of the code is exact far beyond the
four rendered decimal places. -/

/-- Fixed-point rendering of a natural number of ten-thousandths, the
integer part and the zero-padded four-digit fractional part. -/
def natFixed4 (n : ℕ) : String :=
  Nat.repr (n / 10000) ++ "." ++
    String.mk (List.replicate (4 - (Nat.repr (n % 10000)).length) '0') ++
    Nat.repr (n % 10000)

/-- Python f-string `{x:.4f}` on a non-negative value: round to the
nearest ten-thousandth (ties cannot arise at the exactly-represented
values used here) and render with four decimal places. -/
def formatFixed4 (q : ℚ) : String :=
  natFixed4 (⌊q * 10000 + 1 / 2⌋).toNat

/-- The fixed `silenceremove` stage of `_build_filter_chain` (line 124). -/
def silenceStage : String :=
  "silenceremove=start_periods=0:stop_periods=-1:stop_duration=0.2:stop_threshold=-35dB"

/-- The `afade` stage of `_build_filter_chain` (lines 127–129):
`fade_start = max(0, duration - 0.03)` rendered with four decimals. -/
def fadeStage (duration : ℚ) : String :=
  "afade=t=out:st=" ++ formatFixed4 (max 0 (duration - 3 / 100)) ++ ":d=0.03"

/-- `_build_filter_chain` lines 113–131: the ordered `filters` list — the
`arnndn` stage when the model path is truthy (Python: `None` and `""` are
falsy) and `os.path.isfile` holds, then the fixed silence trim, then the
fade-out. -/
def build_filter_chain_list (rnnoise_model_path : Option String)
    (isFile : String → Bool) (duration : ℚ) : List String :=
  (match rnnoise_model_path with
   | some p => if p != "" && isFile p then ["arnndn=m=" ++ p] else []
   | none => []) ++
  [silenceStage, fadeStage duration]

/-- `_build_filter_chain` line 131: `",".join(filters)`. -/
def build_filter_chain (rnnoise_model_path : Option String)
    (isFile : String → Bool) (duration : ℚ) : String :=
  String.intercalate "," (build_filter_chain_list rnnoise_model_path isFile duration)

/-- `clean_chatterbox_audio` lines 200–201: an explicit model path wins;
only `None` falls back to the `RNNOISE_MODEL_PATH` environment variable. -/
def resolve_model_path (explicit envVar : Option String) : Option String :=
  match explicit with
  | none => envVar
  | some p => some p

/-! String stages are pairwise distinguishable by their leading
characters. -/

lemma arnndn_ne_silence (s : String) : "arnndn=m=" ++ s ≠ silenceStage := by
  obtain ⟨sd⟩ := s
  intro h
  have h2 : ('a' : Char) = 's' := congrArg (fun t => t.data.headD ' ') h
  exact absurd h2 (by decide)

lemma arnndn_ne_fade (s : String) (d : ℚ) : "arnndn=m=" ++ s ≠ fadeStage d := by
  show "arnndn=m=" ++ s ≠
    "afade=t=out:st=" ++ formatFixed4 (max 0 (d - 3 / 100)) ++ ":d=0.03"
  obtain ⟨sd⟩ := s
  obtain ⟨fd, hfd⟩ : ∃ l, formatFixed4 (max 0 (d - 3 / 100)) = String.mk l :=
    ⟨(formatFixed4 (max 0 (d - 3 / 100))).data, rfl⟩
  rw [hfd]
  intro h
  have h2 : ('r' : Char) = 'f' := congrArg (fun t => (t.data.drop 1).headD ' ') h
  exact absurd h2 (by decide)

/-- C5: the built filter chain contains the noise-suppression (`arnndn`)
stage iff the resolved model path (explicit, else the
`RNNOISE_MODEL_PATH` environment variable) is a non-empty path naming an
existing file; with no model path configured the stage is simply omitted;
the chain always contains the fixed silence-trim stage and a fade-out
stage. -/
theorem filter_chain_arnndn_iff (explicit envVar : Option String)
    (isFile : String → Bool) (d : ℚ) :
    ((∃ s, "arnndn=m=" ++ s ∈
        build_filter_chain_list (resolve_model_path explicit envVar) isFile d) ↔
      (∃ p, resolve_model_path explicit envVar = some p ∧ p ≠ "" ∧ isFile p = true)) ∧
    silenceStage ∈ build_filter_chain_list (resolve_model_path explicit envVar) isFile d ∧
    fadeStage d ∈ build_filter_chain_list (resolve_model_path explicit envVar) isFile d := by
  set mp := resolve_model_path explicit envVar with hmp
  clear_value mp
  refine ⟨?_, ?_, ?_⟩
  · constructor
    · rintro ⟨s, hs⟩
      match mp with
      | none =>
        rw [build_filter_chain_list] at hs
        simp only [List.nil_append, List.mem_cons, List.not_mem_nil, or_false] at hs
        rcases hs with h | h
        · exact absurd h (arnndn_ne_silence s)
        · exact absurd h (arnndn_ne_fade s d)
      | some p =>
        rw [build_filter_chain_list] at hs
        by_cases hp : (p != "" && isFile p) = true
        · refine ⟨p, rfl, ?_, ?_⟩
          · have := (Bool.and_eq_true _ _).mp hp
            simpa using this.1
          · exact ((Bool.and_eq_true _ _).mp hp).2
        · rw [if_neg hp] at hs
          simp only [List.nil_append, List.mem_cons, List.not_mem_nil, or_false] at hs
          rcases hs with h | h
          · exact absurd h (arnndn_ne_silence s)
          · exact absurd h (arnndn_ne_fade s d)
    · rintro ⟨p, hmpp, hne, hfile⟩
      subst hmpp
      refine ⟨p, ?_⟩
      rw [build_filter_chain_list]
      have hp : (p != "" && isFile p) = true := by
        rw [Bool.and_eq_true]
        exact ⟨by simpa using hne, hfile⟩
      rw [if_pos hp]
      exact List.mem_cons_self _ _
  · match mp with
    | none => simp [build_filter_chain_list]
    | some p =>
      rw [build_filter_chain_list]
      by_cases hp : (p != "" && isFile p) = true
      · rw [if_pos hp]; simp
      · rw [if_neg hp]; simp
  · match mp with
    | none => simp [build_filter_chain_list]
    | some p =>
      rw [build_filter_chain_list]
      by_cases hp : (p != "" && isFile p) = true
      · rw [if_pos hp]; simp
      · rw [if_neg hp]; simp

/-- C6: the fade-out stage is always the last stage of the chain, its
start position is `max(0, duration - 0.03)` rendered with four decimal
places; for `d = 2.0` that renders as `1.9700` and for `d = 0.01` it
clamps to `0.0000`. -/
theorem fade_stage_position (mp : Option String) (isFile : String → Bool) (d : ℚ) :
    (build_filter_chain_list mp isFile d).getLast? =
      some ("afade=t=out:st=" ++ formatFixed4 (max 0 (d - 3 / 100)) ++ ":d=0.03") ∧
    formatFixed4 (max 0 ((2 : ℚ) - 3 / 100)) = "1.9700" ∧
    formatFixed4 (max 0 ((1 / 100 : ℚ) - 3 / 100)) = "0.0000" := by
  refine ⟨?_, ?_, ?_⟩
  · match mp with
    | none => simp [build_filter_chain_list, fadeStage]
    | some p =>
      rw [build_filter_chain_list]
      by_cases hp : (p != "" && isFile p) = true
      · rw [if_pos hp]; simp [fadeStage]
      · rw [if_neg hp]; simp [fadeStage]
  · have h1 : max 0 ((2 : ℚ) - 3 / 100) = 197 / 100 := by norm_num
    have h2 : ⌊(197 / 100 : ℚ) * 10000 + 1 / 2⌋ = (19700 : ℤ) := by norm_num
    rw [formatFixed4, h1, h2]
    decide
  · have h1 : max 0 ((1 / 100 : ℚ) - 3 / 100) = 0 := by
      rw [max_eq_left]
      norm_num
    have h2 : ⌊(0 : ℚ) * 10000 + 1 / 2⌋ = (0 : ℤ) := by norm_num
    rw [formatFixed4, h1, h2]
    decide

/-! ### DenoiseEngine: processing pipeline (`_process_audio`,
`clean_chatterbox_audio`, `AudioCleaner.clean`)

External-process outcomes are supplied by an environment value.  Binary
presence (`ffmpeg`, `ffprobe`) is a property of the environment, constant
across one call; the per-invocation fields give each outcome when the
binary is present.  `Except.error e` in a `result` means the Python
exception `e` escapes the function uncaught. -/

structure DenoiseEnv where
  ffmpegPresent : Bool
  ffprobePresent : Bool
  /-- the `_convert_to_wav` ffmpeg run succeeds -/
  convertOk : Bool
  /-- `_get_duration(input_path)` (line 225): parsed seconds, `none` =
  non-zero exit or malformed JSON output -/
  probeInput : Option ℚ
  /-- the first `ffmpeg -af <chain>` run (line 246) succeeds -/
  runChainOk : Bool
  /-- the fallback `ffmpeg -af <chain-without-arnndn>` run (line 262)
  succeeds -/
  runFallbackOk : Bool
  /-- `_get_duration(tmp_path)` (line 274) on the trimmed temp file -/
  probeTrimmed : Option ℚ
  /-- the precision-fade `ffmpeg` run (line 291) succeeds -/
  fadeRunOk : Bool
  /-- `_get_duration` (line 363) in `AudioCleaner.clean`, best effort -/
  probeCleanInput : Option ℚ
  /-- `_get_duration(output_path)` (line 377) in `AudioCleaner.clean` -/
  probeCleanOutput : Option ℚ

/-- `_get_duration` (lines 103–110): raises `FileNotFoundError` when the
ffprobe binary is absent, a process/parse error otherwise on failure. -/
def get_duration (present : Bool) (parsed : Option ℚ) : Except PyExc ℚ :=
  if present then
    match parsed with
    | some d => .ok d
    | none => .error .probeParseError
  else .error .fileNotFoundError

/-- One `subprocess.run(["ffmpeg", ...], check=True)`:
`FileNotFoundError` when the binary is absent, `CalledProcessError` on a
non-zero exit. -/
def run_ffmpeg (present ok : Bool) : Except PyExc Unit :=
  if present then
    if ok then .ok () else .error .calledProcessError
  else .error .fileNotFoundError

/-- Python truthiness test
`rnnoise_model_path and os.path.isfile(rnnoise_model_path)`
(line 233): `None` and `""` are falsy. -/
def truthyFile (mp : Option String) (isFile : String → Bool) : Bool :=
  match mp with
  | some p => p != "" && isFile p
  | none => false

/-- Which file ends up at `output_path`. -/
inductive Published where
  /-- the step-3/4 output (`os.replace(tmp_path, output_path)`) -/
  | firstPass
  /-- the precision-faded output (`os.replace(tmp_path2, output_path)`) -/
  | faded
  deriving DecidableEq

/-- Observable outcome of `_process_audio` / `clean_chatterbox_audio`. -/
structure ProcTrace where
  /-- return value; `.error e` = the exception escapes uncaught -/
  result : Except PyExc Bool
  /-- the `-af` filter-chain arguments of the step-3/4 runs, in order -/
  chainAttempts : List String
  /-- the `-af` argument of the precision-fade run, when attempted -/
  fadeChain : Option String
  published : Option Published
  /-- number of external-process invocations -/
  calls : Nat

/-- `_process_audio` lines 272–307: re-probe the trimmed duration and run
the precision fade-only pass.  The `except` tuple on line 275 does not
include `FileNotFoundError`, so that exception would escape; the parse /
process failure branch publishes the trimmed file as-is and still returns
`True`, as does a failed fade run (lines 294–297).  The metrics probe
(lines 299–306) catches every exception and only counts as a call. -/
def fade_publish (env : DenoiseEnv) :
    Except PyExc Bool × Option String × Option Published × Nat :=
  match get_duration env.ffprobePresent env.probeTrimmed with
  | .error .fileNotFoundError => (.error .fileNotFoundError, none, none, 1)
  | .error _ => (.ok true, none, some .firstPass, 1)
  | .ok trimmed_duration =>
      let fadeArg :=
        "afade=t=out:st=" ++ formatFixed4 (max 0 (trimmed_duration - 3 / 100)) ++ ":d=0.03"
      match run_ffmpeg env.ffmpegPresent env.fadeRunOk with
      | .ok _ => (.ok true, some fadeArg, some .faded, 3)
      | .error _ => (.ok true, some fadeArg, some .firstPass, 3)

/-- `_process_audio` lines 221–307. -/
def process_audio (env : DenoiseEnv) (rnnoise_model_path : Option String)
    (isFile : String → Bool) : ProcTrace :=
  match get_duration env.ffprobePresent env.probeInput with
  | .error _ =>
      -- lines 224–231: both except branches return False
      { result := .ok false, chainAttempts := [], fadeChain := none,
        published := none, calls := 1 }
  | .ok input_duration =>
      let use_rnnoise := truthyFile rnnoise_model_path isFile
      let chain := build_filter_chain rnnoise_model_path isFile input_duration
      match run_ffmpeg env.ffmpegPresent env.runChainOk with
      | .error .fileNotFoundError =>
          -- lines 247–250
          { result := .ok false, chainAttempts := [chain], fadeChain := none,
            published := none, calls := 2 }
      | .error _ =>
          -- lines 251–270: CalledProcessError
          if use_rnnoise then
            let fallback_chain := build_filter_chain none isFile input_duration
            match run_ffmpeg env.ffmpegPresent env.runFallbackOk with
            | .ok _ =>
                match fade_publish env with
                | (r, fc, pub, c) =>
                    { result := r, chainAttempts := [chain, fallback_chain],
                      fadeChain := fc, published := pub, calls := 3 + c }
            | .error _ =>
                { result := .ok false, chainAttempts := [chain, fallback_chain],
                  fadeChain := none, published := none, calls := 3 }
          else
            { result := .ok false, chainAttempts := [chain], fadeChain := none,
              published := none, calls := 2 }
      | .ok _ =>
          match fade_publish env with
          | (r, fc, pub, c) =>
              { result := r, chainAttempts := [chain], fadeChain := fc,
                published := pub, calls := 2 + c }

/-- `clean_chatterbox_audio` lines 173–218: resolve the model path, then
convert a non-WAV input first (`_convert_to_wav` catches both
`CalledProcessError` and `FileNotFoundError` and returns `None`, turned
into `return False`), then run `_process_audio`. -/
def clean_chatterbox_audio (env : DenoiseEnv) (inputIsWav : Bool)
    (rnnoise_model_path envVar : Option String) (isFile : String → Bool) : ProcTrace :=
  let mp := resolve_model_path rnnoise_model_path envVar
  if inputIsWav then process_audio env mp isFile
  else
    match run_ffmpeg env.ffmpegPresent env.convertOk with
    | .ok _ =>
        let t := process_audio env mp isFile
        { t with calls := t.calls + 1 }
    | .error _ =>
        { result := .ok false, chainAttempts := [], fadeChain := none,
          published := none, calls := 1 }

/-- The fields of `DenoiseResult` (lines 88–96). -/
structure DenoiseResult where
  success : Bool
  input_path : String
  output_path : String
  input_duration : Option ℚ := none
  output_duration : Option ℚ := none
  duration_saved : Option ℚ := none
  error : Option String := none

/-- The filesystem facts the validators consult; `dirname` abstracts
`os.path.dirname`. -/
structure FS where
  isFile : String → Bool
  isDir : String → Bool
  dirname : String → String

/-- `AudioInputPath` (lines 63–72): the input must name an existing file.
pydantic wraps the validator message in a `ValidationError`; the model
keeps the inner message, which is all the claims rely on. -/
def validate_input_path (fs : FS) (p : String) : Except String String :=
  if fs.isFile p then .ok p
  else .error ("Input audio file does not exist: " ++ p)

/-- `AudioOutputPath` (lines 75–85): a non-empty parent directory of the
output path must exist (`if parent and not os.path.isdir(parent)`). -/
def validate_output_path (fs : FS) (p : String) : Except String String :=
  if fs.dirname p != "" && !fs.isDir (fs.dirname p) then
    .error ("Output directory does not exist: " ++ fs.dirname p)
  else .ok p

/-- `AudioCleaner.clean` (lines 342–390).  Returns the structured result
(or the escaping exception) together with the total number of
external-process invocations made during the call. -/
def AudioCleaner.clean (fs : FS) (env : DenoiseEnv)
    (self_model_path envVar : Option String) (inputIsWav : Bool)
    (input_path output_path : String) : Except PyExc DenoiseResult × Nat :=
  match validate_input_path fs input_path with
  | .error e =>
      (.ok { success := false, input_path := input_path,
             output_path := output_path, error := some e }, 0)
  | .ok vin =>
    match validate_output_path fs output_path with
    | .error e =>
        (.ok { success := false, input_path := input_path,
               output_path := output_path, error := some e }, 0)
    | .ok vout =>
      -- lines 361–365: best-effort input probe, catches every exception
      let input_duration : Option ℚ :=
        match get_duration env.ffprobePresent env.probeCleanInput with
        | .ok d => some d
        | .error _ => none
      let t := clean_chatterbox_audio env inputIsWav self_model_path envVar fs.isFile
      match t.result with
      | .error e => (.error e, 1 + t.calls)
      | .ok success =>
        -- lines 373–381: best-effort output probe only on success
        let output_duration : Option ℚ :=
          if success then
            match get_duration env.ffprobePresent env.probeCleanOutput with
            | .ok d => some d
            | .error _ => none
          else none
        let duration_saved : Option ℚ :=
          match output_duration, input_duration with
          | some o, some i => some (i - o)
          | _, _ => none
        (.ok { success := success, input_path := vin, output_path := vout,
               input_duration := input_duration,
               output_duration := output_duration,
               duration_saved := duration_saved }, 1 + t.calls + (if success then 1 else 0))

/-! ### DenoiseEngine: error-handling lemmas -/

lemma fade_publish_fst (env : DenoiseEnv) (h : env.ffprobePresent = true) :
    (fade_publish env).1 = .ok true := by
  cases ht : env.probeTrimmed <;> cases hf : env.ffmpegPresent <;>
    cases hr : env.fadeRunOk <;>
    simp [fade_publish, get_duration, run_ffmpeg, h, ht, hf, hr]

lemma process_audio_result_ok (env : DenoiseEnv) (mp : Option String)
    (isFile : String → Bool) :
    ∃ b, (process_audio env mp isFile).result = .ok b := by
  cases hp : env.ffprobePresent
  · exact ⟨false, by simp [process_audio, get_duration, hp]⟩
  · cases hi : env.probeInput
    · exact ⟨false, by simp [process_audio, get_duration, hp, hi]⟩
    · rcases hfp : fade_publish env with ⟨r, fc, pub, c⟩
      have hr1 : r = .ok true := by
        have := fade_publish_fst env hp
        rw [hfp] at this
        exact this
      cases hf : env.ffmpegPresent
      · exact ⟨false, by simp [process_audio, get_duration, run_ffmpeg, hp, hi, hf]⟩
      · cases hr : env.runChainOk
        · cases hu : truthyFile mp isFile
          · exact ⟨false, by
              simp [process_audio, get_duration, run_ffmpeg, hp, hi, hf, hr, hu]⟩
          · cases hb : env.runFallbackOk
            · exact ⟨false, by
                simp [process_audio, get_duration, run_ffmpeg, hp, hi, hf, hr, hu, hb]⟩
            · exact ⟨true, by
                simp [process_audio, get_duration, run_ffmpeg, hp, hi, hf, hr, hu, hb,
                  hfp, hr1]⟩
        · exact ⟨true, by
            simp [process_audio, get_duration, run_ffmpeg, hp, hi, hf, hr, hfp, hr1]⟩

lemma process_audio_probe_absent (env : DenoiseEnv) (mp : Option String)
    (isFile : String → Bool) (hp : env.ffprobePresent = false) :
    (process_audio env mp isFile).result = .ok false := by
  simp [process_audio, get_duration, hp]

lemma process_audio_probe_failed (env : DenoiseEnv) (mp : Option String)
    (isFile : String → Bool) (hi : env.probeInput = none) :
    (process_audio env mp isFile).result = .ok false := by
  cases hp : env.ffprobePresent <;> simp [process_audio, get_duration, hp, hi]

lemma process_audio_ffmpeg_absent (env : DenoiseEnv) (mp : Option String)
    (isFile : String → Bool) (hf : env.ffmpegPresent = false) :
    (process_audio env mp isFile).result = .ok false := by
  cases hp : env.ffprobePresent
  · exact process_audio_probe_absent env mp isFile hp
  · cases hi : env.probeInput
    · exact process_audio_probe_failed env mp isFile hi
    · simp [process_audio, get_duration, run_ffmpeg, hp, hi, hf]

lemma process_audio_runs_failed (env : DenoiseEnv) (mp : Option String)
    (isFile : String → Bool) (hr : env.runChainOk = false)
    (hb : env.runFallbackOk = false) :
    (process_audio env mp isFile).result = .ok false := by
  cases hp : env.ffprobePresent
  · exact process_audio_probe_absent env mp isFile hp
  · cases hi : env.probeInput
    · exact process_audio_probe_failed env mp isFile hi
    · cases hf : env.ffmpegPresent
      · exact process_audio_ffmpeg_absent env mp isFile hf
      · cases hu : truthyFile mp isFile <;>
          simp [process_audio, get_duration, run_ffmpeg, hp, hi, hf, hr, hu, hb]

lemma clean_chatterbox_lift (env : DenoiseEnv) (inputIsWav : Bool)
    (mp envVar : Option String) (isFile : String → Bool)
    (h : (process_audio env (resolve_model_path mp envVar) isFile).result = .ok false) :
    (clean_chatterbox_audio env inputIsWav mp envVar isFile).result = .ok false := by
  cases hw : inputIsWav
  · cases hf : env.ffmpegPresent <;> cases hc : env.convertOk <;>
      simp [clean_chatterbox_audio, run_ffmpeg, hf, hc, h]
  · simpa [clean_chatterbox_audio] using h

lemma clean_chatterbox_result_ok (env : DenoiseEnv) (inputIsWav : Bool)
    (mp envVar : Option String) (isFile : String → Bool) :
    ∃ b, (clean_chatterbox_audio env inputIsWav mp envVar isFile).result = .ok b := by
  obtain ⟨b, hb⟩ := process_audio_result_ok env (resolve_model_path mp envVar) isFile
  cases hw : inputIsWav
  · cases hf : env.ffmpegPresent <;> cases hc : env.convertOk
    · exact ⟨false, by simp [clean_chatterbox_audio, run_ffmpeg, hf, hc]⟩
    · exact ⟨false, by simp [clean_chatterbox_audio, run_ffmpeg, hf, hc]⟩
    · exact ⟨false, by simp [clean_chatterbox_audio, run_ffmpeg, hf, hc]⟩
    · exact ⟨b, by simp [clean_chatterbox_audio, run_ffmpeg, hf, hc, hb]⟩
  · exact ⟨b, by simpa [clean_chatterbox_audio] using hb⟩

/-- The validator message for a missing input file. -/
lemma validate_input_msg_ne_empty (p : String) :
    "Input audio file does not exist: " ++ p ≠ "" := by
  obtain ⟨pd⟩ := p
  intro h
  have h2 := congrArg (fun t => t.data.length) h
  simp [String.data, String.append] at h2

/-- The validator message for a missing output directory. -/
lemma validate_output_msg_ne_empty (p : String) :
    "Output directory does not exist: " ++ p ≠ "" := by
  obtain ⟨pd⟩ := p
  intro h
  have h2 := congrArg (fun t => t.data.length) h
  simp [String.data, String.append] at h2

/-- C2: for every expected failure mode — input-validation failure,
duration-probe failure, missing external tool, filter failure after the
fallback — the denoise operation returns a failure value (`False`, or a
`DenoiseResult` with `success = false`) and never lets an exception
escape; in particular an absent ffmpeg/ffprobe binary yields `False`, not
a crash. -/
theorem denoise_expected_failures_never_raise
    (env : DenoiseEnv) (mp envVar sp : Option String) (isFile : String → Bool)
    (inputIsWav : Bool) (fs : FS) (input output : String) :
    (∃ b, (clean_chatterbox_audio env inputIsWav mp envVar isFile).result = .ok b) ∧
    (env.ffprobePresent = false →
      (clean_chatterbox_audio env inputIsWav mp envVar isFile).result = .ok false) ∧
    (env.ffmpegPresent = false →
      (clean_chatterbox_audio env inputIsWav mp envVar isFile).result = .ok false) ∧
    (env.probeInput = none →
      (clean_chatterbox_audio env inputIsWav mp envVar isFile).result = .ok false) ∧
    (env.runChainOk = false → env.runFallbackOk = false →
      (clean_chatterbox_audio env inputIsWav mp envVar isFile).result = .ok false) ∧
    (∃ r, (AudioCleaner.clean fs env sp envVar inputIsWav input output).1 = .ok r) ∧
    (fs.isFile input = false →
      ∃ r, (AudioCleaner.clean fs env sp envVar inputIsWav input output).1 = .ok r ∧
        r.success = false) := by
  refine ⟨clean_chatterbox_result_ok env inputIsWav mp envVar isFile,
    fun hp => clean_chatterbox_lift env inputIsWav mp envVar isFile
      (process_audio_probe_absent env _ isFile hp),
    fun hf => ?_,
    fun hi => clean_chatterbox_lift env inputIsWav mp envVar isFile
      (process_audio_probe_failed env _ isFile hi),
    fun hr hb => clean_chatterbox_lift env inputIsWav mp envVar isFile
      (process_audio_runs_failed env _ isFile hr hb),
    ?_, fun hv => ?_⟩
  · -- ffmpeg absent: the non-WAV conversion also fails cleanly
    cases hw : inputIsWav
    · simp [clean_chatterbox_audio, run_ffmpeg, hf]
    · simpa [clean_chatterbox_audio]
        using process_audio_ffmpeg_absent env (resolve_model_path mp envVar) isFile hf
  · -- AudioCleaner.clean never lets an exception escape
    rw [AudioCleaner.clean]
    cases hvi : validate_input_path fs input
    · exact ⟨_, rfl⟩
    · cases hvo : validate_output_path fs output
      · exact ⟨_, rfl⟩
      · obtain ⟨b, hb⟩ := clean_chatterbox_result_ok env inputIsWav sp envVar fs.isFile
        simp only [hb]
        exact ⟨_, rfl⟩
  · -- input-validation failure: structured failure result
    rw [AudioCleaner.clean]
    rw [show validate_input_path fs input =
      .error ("Input audio file does not exist: " ++ input) by
        simp [validate_input_path, hv]]
    exact ⟨_, rfl, rfl⟩

/-- Concrete environment with no external tools installed. -/
def envNoTools : DenoiseEnv :=
  ⟨false, false, false, none, false, false, none, false, none, none⟩

/-- Concrete filesystem with no files and no directories. -/
def fsNone : FS := ⟨fun _ => false, fun _ => false, fun _ => ""⟩

/-- Witness for C2: with no tools installed the boolean entry point
returns `False`, and with a missing input file the structured entry point
returns `success = false` — no exception escapes. -/
theorem denoise_expected_failures_never_raise_witness :
    (clean_chatterbox_audio envNoTools true none none (fun _ => false)).result =
      .ok false ∧
    ∃ r, (AudioCleaner.clean fsNone envNoTools none none true "in.wav" "out.wav").1 =
        .ok r ∧ r.success = false :=
  ⟨(denoise_expected_failures_never_raise envNoTools none none none (fun _ => false)
      true fsNone "in.wav" "out.wav").2.1 rfl,
   (denoise_expected_failures_never_raise envNoTools none none none (fun _ => false)
      true fsNone "in.wav" "out.wav").2.2.2.2.2.2 rfl⟩

/-- C4: when the first filter run fails with a process error and the
chain included the noise-suppression stage, the pipeline rebuilds the
chain without that stage and retries exactly once — the first attempted
chain contains the `arnndn` stage and the second does not; if the retry
also fails the operation returns `False`, and if the failing chain had no
suppression stage there is no retry and the operation returns `False`. -/
theorem denoise_fallback_retry (env : DenoiseEnv) (mp : Option String)
    (isFile : String → Bool) (d : ℚ)
    (hp : env.ffprobePresent = true) (hi : env.probeInput = some d)
    (hf : env.ffmpegPresent = true) (hr : env.runChainOk = false) :
    (truthyFile mp isFile = true →
      (process_audio env mp isFile).chainAttempts =
        [build_filter_chain mp isFile d, build_filter_chain none isFile d] ∧
      (∃ p, "arnndn=m=" ++ p ∈ build_filter_chain_list mp isFile d) ∧
      (∀ p, "arnndn=m=" ++ p ∉ build_filter_chain_list none isFile d) ∧
      (env.runFallbackOk = false → (process_audio env mp isFile).result = .ok false) ∧
      (env.runFallbackOk = true → (process_audio env mp isFile).result = .ok true)) ∧
    (truthyFile mp isFile = false →
      (process_audio env mp isFile).chainAttempts = [build_filter_chain mp isFile d] ∧
      (process_audio env mp isFile).result = .ok false) := by
  constructor
  · intro hu
    refine ⟨?_, ?_, ?_, ?_, ?_⟩
    · cases hb : env.runFallbackOk
      · simp [process_audio, get_duration, run_ffmpeg, hp, hi, hf, hr, hu, hb]
      · rcases hfp : fade_publish env with ⟨r, fc, pub, c⟩
        simp [process_audio, get_duration, run_ffmpeg, hp, hi, hf, hr, hu, hb, hfp]
    · match hm : mp with
      | some p =>
        rw [truthyFile] at hu
        refine ⟨p, ?_⟩
        rw [build_filter_chain_list, if_pos hu]
        exact List.mem_cons_self _ _
      | none => rw [truthyFile] at hu; exact absurd hu (by simp)
    · intro p hmem
      rw [build_filter_chain_list] at hmem
      simp only [List.nil_append, List.mem_cons, List.not_mem_nil, or_false] at hmem
      rcases hmem with h | h
      · exact absurd h (arnndn_ne_silence p)
      · exact absurd h (arnndn_ne_fade p d)
    · intro hb
      simp [process_audio, get_duration, run_ffmpeg, hp, hi, hf, hr, hu, hb]
    · intro hb
      rcases hfp : fade_publish env with ⟨r, fc, pub, c⟩
      have hr1 : r = .ok true := by
        have := fade_publish_fst env hp
        rw [hfp] at this
        exact this
      simp [process_audio, get_duration, run_ffmpeg, hp, hi, hf, hr, hu, hb, hfp, hr1]
  · intro hu
    constructor <;>
      simp [process_audio, get_duration, run_ffmpeg, hp, hi, hf, hr, hu]

/-- Environment for the C4 witness: first filter run fails, fallback run
succeeds, trimmed-duration probe then fails (fade skipped, still a
success). -/
def envFallback : DenoiseEnv :=
  ⟨true, true, false, some 2, false, true, none, false, none, none⟩

/-- `os.path.isfile` oracle knowing only the RNNoise model file. -/
def isFileModelOnly : String → Bool := fun p => p == "m.rnnn"

/-- Witness for C4: with the suppression stage present and the first run
failing, the retry without the stage succeeds and the call returns
`True`. -/
theorem denoise_fallback_retry_witness :
    (process_audio envFallback (some "m.rnnn") isFileModelOnly).result = .ok true :=
  ((denoise_fallback_retry envFallback (some "m.rnnn") isFileModelOnly 2
      rfl rfl rfl rfl).1 (by decide)).2.2.2.2 rfl

lemma fade_publish_first_pass (env : DenoiseEnv)
    (hp : env.ffprobePresent = true) (hf : env.ffmpegPresent = true)
    (hfail : env.probeTrimmed = none ∨ env.fadeRunOk = false) :
    (fade_publish env).1 = .ok true ∧
    (fade_publish env).2.2.1 = some .firstPass := by
  cases ht : env.probeTrimmed
  · constructor <;> simp [fade_publish, get_duration, hp, ht]
  · have hb : env.fadeRunOk = false := by
      rcases hfail with h | h
      · rw [ht] at h; exact absurd h (by simp)
      · exact h
    constructor <;> simp [fade_publish, get_duration, run_ffmpeg, hp, hf, ht, hb]

/-- C8: once the filter-run phase has succeeded, a failing
trimmed-duration probe or a failing precision-fade run still publishes
the first-pass output and the call returns `True` — only the precision
fade is lost, not the whole result. -/
theorem denoise_fade_failure_keeps_first_pass (env : DenoiseEnv)
    (mp : Option String) (isFile : String → Bool) (d : ℚ)
    (hp : env.ffprobePresent = true) (hi : env.probeInput = some d)
    (hf : env.ffmpegPresent = true)
    (hreach : env.runChainOk = true ∨
      (truthyFile mp isFile = true ∧ env.runFallbackOk = true))
    (hfail : env.probeTrimmed = none ∨ env.fadeRunOk = false) :
    (process_audio env mp isFile).result = .ok true ∧
    (process_audio env mp isFile).published = some .firstPass := by
  obtain ⟨h1, h2⟩ := fade_publish_first_pass env hp hf hfail
  rcases hfp : fade_publish env with ⟨r, fc, pub, c⟩
  rw [hfp] at h1 h2
  dsimp only at h1 h2
  cases hrc : env.runChainOk
  · have hu : truthyFile mp isFile = true ∧ env.runFallbackOk = true := by
      rcases hreach with h | h
      · rw [hrc] at h; exact absurd h (by simp)
      · exact h
    constructor <;>
      simp [process_audio, get_duration, run_ffmpeg, hp, hi, hf, hrc, hu.1, hu.2,
        hfp, h1, h2]
  · constructor <;>
      simp [process_audio, get_duration, run_ffmpeg, hp, hi, hf, hrc, hfp, h1, h2]

/-- Environment for the C8 witness: chain run succeeds, the re-probe of
the trimmed duration fails. -/
def envFadeSkip : DenoiseEnv :=
  ⟨true, true, false, some 2, true, false, none, false, none, none⟩

/-- Witness for C8: the first-pass output is published and the call
returns `True` when the trimmed-duration probe fails. -/
theorem denoise_fade_failure_keeps_first_pass_witness :
    (process_audio envFadeSkip none (fun _ => false)).result = .ok true ∧
    (process_audio envFadeSkip none (fun _ => false)).published = some .firstPass :=
  denoise_fade_failure_keeps_first_pass envFadeSkip none (fun _ => false) 2
    rfl rfl rfl (Or.inl rfl) (Or.inl rfl)

/-- C9: when the input path names no existing file, or the output path
has a non-empty parent that is not a directory, `AudioCleaner.clean`
short-circuits: it returns a `DenoiseResult` with `success = false`, a
non-empty error message and no duration fields, and makes no
external-process invocation at all. -/
theorem clean_validation_short_circuits (fs : FS) (env : DenoiseEnv)
    (sp envVar : Option String) (inputIsWav : Bool) (input output : String)
    (hv : fs.isFile input = false ∨
      (fs.dirname output ≠ "" ∧ fs.isDir (fs.dirname output) = false)) :
    ∃ m, (AudioCleaner.clean fs env sp envVar inputIsWav input output).1 =
        .ok { success := false, input_path := input, output_path := output,
              input_duration := none, output_duration := none,
              duration_saved := none, error := some m } ∧
      m ≠ "" ∧
      (AudioCleaner.clean fs env sp envVar inputIsWav input output).2 = 0 := by
  cases hin : fs.isFile input
  · refine ⟨"Input audio file does not exist: " ++ input, ?_, ?_, ?_⟩
    · rw [AudioCleaner.clean,
        show validate_input_path fs input =
          .error ("Input audio file does not exist: " ++ input) by
            simp [validate_input_path, hin]]
    · exact validate_input_msg_ne_empty input
    · rw [AudioCleaner.clean,
        show validate_input_path fs input =
          .error ("Input audio file does not exist: " ++ input) by
            simp [validate_input_path, hin]]
  · have hout : fs.dirname output ≠ "" ∧ fs.isDir (fs.dirname output) = false := by
      rcases hv with h | h
      · rw [hin] at h; exact absurd h (by simp)
      · exact h
    have hcond : (fs.dirname output != "" && !fs.isDir (fs.dirname output)) = true := by
      rw [Bool.and_eq_true]
      exact ⟨by simpa using hout.1, by simp [hout.2]⟩
    refine ⟨"Output directory does not exist: " ++ fs.dirname output, ?_, ?_, ?_⟩
    · rw [AudioCleaner.clean,
        show validate_input_path fs input = .ok input by simp [validate_input_path, hin],
        show validate_output_path fs output =
          .error ("Output directory does not exist: " ++ fs.dirname output) by
            rw [validate_output_path, if_pos hcond]]
    · exact validate_output_msg_ne_empty (fs.dirname output)
    · rw [AudioCleaner.clean,
        show validate_input_path fs input = .ok input by simp [validate_input_path, hin],
        show validate_output_path fs output =
          .error ("Output directory does not exist: " ++ fs.dirname output) by
            rw [validate_output_path, if_pos hcond]]

/-- Witness for C9: a missing input file yields a structured validation
failure with zero external invocations. -/
theorem clean_validation_short_circuits_witness :
    ∃ m, (AudioCleaner.clean fsNone envNoTools none none true "a.wav" "b.wav").1 =
        .ok { success := false, input_path := "a.wav", output_path := "b.wav",
              input_duration := none, output_duration := none,
              duration_saved := none, error := some m } ∧
      m ≠ "" ∧
      (AudioCleaner.clean fsNone envNoTools none none true "a.wav" "b.wav").2 = 0 :=
  clean_validation_short_circuits fsNone envNoTools none none true "a.wav" "b.wav"
    (Or.inl rfl)

end AutoTranslate
